import Mathlib

/-!
Shallow embedding of the chatbot service in `app/main.py` (FastAPI app
"Chatbot IA API").  The core request pipeline of the `POST /chat` handler
and its helper functions `process_message`, `classify_intent`,
`should_transfer_to_human` and `generate_suggestions` are translated into
pure Lean functions.  Python float confidence literals (0.95, 0.8, ...) are
embedded as exact rationals; every comparison performed by the code
(`< 0.7`, `> 0.8`) has the same truth value on these rationals as on the
IEEE doubles, since the compared literals are syntactically distinct
decimals whose double roundings preserve their order.
Time-dependent fields (`session_id`, `timestamp`) and the fire-and-forget
logging task are outside the claims and are omitted from the embedded
response record.
-/

namespace Chatbot

set_option maxRecDepth 10000
set_option linter.unusedVariables false

/-- `leadMatch n h` holds when list `n` is an initial segment of list `h`. -/
def leadMatch : List Char → List Char → Bool
  | [], _ => true
  | _ :: _, [] => false
  | c :: cs, d :: ds => c == d && leadMatch cs ds

/-- `subMatch n h`: `n` occurs as a contiguous sublist of `h`
(Python's `n in h` on strings). -/
def subMatch (needle : List Char) : List Char → Bool
  | [] => leadMatch needle []
  | c :: cs => leadMatch needle (c :: cs) || subMatch needle cs

/-- Python's `needle in hay` substring test. -/
def strContains (hay needle : String) : Bool :=
  subMatch needle.data hay.data

/-- One character of Python's `str.lower`, restricted to ASCII `A`–`Z` and
the Latin-1 uppercase letters `À`–`Þ` (U+00C0–U+00DE, excluding `×`), which
covers every character the keyword tables can distinguish.  Other
characters are left unchanged, as `str.lower` leaves them for this
repertoire. -/
def lowerChar (c : Char) : Char :=
  if 65 ≤ c.toNat ∧ c.toNat ≤ 90 then Char.ofNat (c.toNat + 32)
  else if 192 ≤ c.toNat ∧ c.toNat ≤ 222 ∧ c.toNat ≠ 215 then Char.ofNat (c.toNat + 32)
  else c

/-- Python's `message.lower()` under the character model of `lowerChar`. -/
def lowerStr (s : String) : String :=
  ⟨s.data.map lowerChar⟩

/-- Python's `any(word in hay for word in kws)`. -/
def anyKw (hay : String) (kws : List String) : Bool :=
  kws.any (fun k => strContains hay k)

/-- Pydantic model `ChatMessage` (validation of the length bounds happens at
the HTTP boundary and is not part of the core functions). -/
structure ChatMessage where
  user_id : String
  message : String
  channel : String
deriving DecidableEq

/-- The dict `{"type": ..., "confidence": ...}` returned by
`classify_intent`. -/
structure Intent where
  itype : String
  confidence : ℚ
deriving DecidableEq

/-- The fields of `ChatResponse` that the core pipeline determines
(`session_id` and `timestamp` are clock-derived and omitted). -/
structure ChatResponseCore where
  response : String
  intent : String
  confidence : ℚ
  requires_human : Bool
  suggested_actions : List String
deriving DecidableEq

/-- Reply string of `process_message`'s greeting branch. -/
def greeting_reply : String :=
  "Olá! 👋 Sou o assistente virtual da empresa. Como posso ajudá-lo hoje? Posso auxiliar com informações sobre pedidos, produtos, suporte técnico e muito mais!"

/-- Reply string of `process_message`'s order branch. -/
def order_reply : String :=
  "📦 Para consultar seu pedido, preciso do número. Pode me informar o número do pedido? Exemplo: #12345. Com essa informação, posso verificar o status, rastreamento e previsão de entrega!"

/-- Reply string of `process_message`'s product branch. -/
def product_reply : String :=
  "🛍️ Temos diversos produtos disponíveis! Pode me dizer qual produto específico você tem interesse? Posso fornecer informações sobre características, preços, disponibilidade e formas de pagamento."

/-- Reply string of `process_message`'s problem/support branch. -/
def support_reply : String :=
  "🛠️ Sinto muito pelo inconveniente! Vou ajudar você a resolver isso. Pode me descrever o problema com mais detalhes? Qual produto está apresentando problema e o que exatamente está acontecendo?"

/-- Reply string of `process_message`'s billing branch. -/
def billing_reply : String :=
  "💰 Questões de cobrança são importantes! Posso ajudar com dúvidas sobre sua fatura, formas de pagamento, vencimentos e negociação. Qual é sua dúvida específica sobre cobrança?"

/-- Reply string of `process_message`'s cancellation branch. -/
def cancel_reply : String :=
  "❌ Entendi que você deseja cancelar algo. Para processar seu cancelamento de forma adequada, preciso de mais informações. O que você gostaria de cancelar? Pedido, assinatura ou outro serviço?"

/-- Reply string of `process_message`'s gratitude branch. -/
def thanks_reply : String :=
  "😊 Fico feliz em ter ajudado! Se precisar de mais alguma coisa, estarei sempre aqui. Tenha um ótimo dia! ⭐"

/-- Reply string of `process_message`'s fallback branch. -/
def fallback_reply : String :=
  "🤔 Interessante! Estou processando sua solicitação. Embora eu possa ajudar com diversas questões, para esta situação específica, que tal falar com um de nossos especialistas? Eles terão todo prazer em ajudar você!"

/-- `process_message` from `app/main.py`: keyword-matched canned reply. -/
def process_message (message : ChatMessage) : String :=
  let user_msg := lowerStr message.message
  if anyKw user_msg ["olá", "oi", "bom dia", "boa tarde"] then greeting_reply
  else if anyKw user_msg ["pedido", "status", "encomenda"] then order_reply
  else if anyKw user_msg ["produto", "preço", "informação"] then product_reply
  else if anyKw user_msg ["problema", "não funciona", "defeito", "suporte"] then support_reply
  else if anyKw user_msg ["cobrança", "fatura", "pagamento"] then billing_reply
  else if anyKw user_msg ["cancelar", "cancelamento"] then cancel_reply
  else if anyKw user_msg ["obrigado", "valeu", "muito bom"] then thanks_reply
  else fallback_reply

/-- `classify_intent` from `app/main.py`. -/
def classify_intent (message : String) : Intent :=
  let message_lower := lowerStr message
  if anyKw message_lower ["pedido", "status", "encomenda", "tracking"] then
    ⟨"order_status", 0.95⟩
  else if anyKw message_lower ["produto", "preço", "informação", "detalhes"] then
    ⟨"product_info", 0.90⟩
  else if anyKw message_lower ["cobrança", "fatura", "pagamento", "valor"] then
    ⟨"billing", 0.88⟩
  else if anyKw message_lower ["problema", "defeito", "não funciona", "suporte"] then
    ⟨"technical_support", 0.92⟩
  else if anyKw message_lower ["reclamação", "insatisfeito", "ruim"] then
    ⟨"complaint", 0.85⟩
  else if anyKw message_lower ["olá", "oi", "bom dia", "boa tarde"] then
    ⟨"greeting", 0.98⟩
  else
    ⟨"general_inquiry", 0.70⟩

/-- The `human_keywords` list of `should_transfer_to_human`. -/
def human_keywords : List String :=
  ["falar com", "atendente", "pessoa", "humano", "gerente", "supervisão"]

/-- `should_transfer_to_human` from `app/main.py`. -/
def should_transfer_to_human (message : String) (intent : Intent) : Bool :=
  if anyKw (lowerStr message) human_keywords then true
  else if intent.itype = "complaint" ∧ intent.confidence > 0.8 then true
  else if intent.confidence < 0.7 then true
  else false

/-- The `suggestions` dict of `generate_suggestions`. -/
def suggestionsTable : List (String × List String) :=
  [("order_status",
    ["📦 Consultar outro pedido",
     "📱 Receber notificações por WhatsApp",
     "📧 Falar com atendente"]),
   ("product_info",
    ["🛍️ Ver produtos similares",
     "💰 Consultar formas de pagamento",
     "📞 Falar com vendedor"]),
   ("technical_support",
    ["📋 Acessar tutorial",
     "🎥 Ver vídeo explicativo",
     "👨‍💻 Falar com técnico"]),
   ("billing",
    ["💳 Ver formas de pagamento",
     "📄 Segunda via da fatura",
     "💰 Negociar desconto"]),
   ("complaint",
    ["📝 Abrir chamado formal",
     "📞 Falar com supervisor",
     "🎁 Ver compensações"])]

/-- The default list of `suggestions.get(intent_type, [...])`. -/
def default_suggestions : List String :=
  ["❓ Fazer outra pergunta",
   "📞 Falar com atendente",
   "🏠 Voltar ao início"]

/-- `generate_suggestions` from `app/main.py`: `suggestions.get` with a
default (the `message` parameter is accepted but unused, as in the
source). -/
def generate_suggestions (intent : Intent) (message : String) : List String :=
  (suggestionsTable.lookup intent.itype).getD default_suggestions

/-- The core of the `POST /chat` handler `chat` in `app/main.py`: the
deterministic part of the assembled `ChatResponse` (logging, `session_id`
and `timestamp` omitted).  Note the handler sets `confidence = 0.95`
itself instead of reading the classifier's value. -/
def chat (message : ChatMessage) : ChatResponseCore :=
  let response_text := process_message message
  let intent := classify_intent message.message
  let confidence : ℚ := 0.95
  let requires_human := should_transfer_to_human message.message intent
  let suggested_actions := generate_suggestions intent message.message
  { response := response_text
    intent := intent.itype
    confidence := confidence
    requires_human := requires_human
    suggested_actions := suggested_actions }

/-- The priority table of `classify_intent` as the spec states it: topic,
trigger keywords, and the topic's fixed confidence constant, in the fixed
priority order order_status, product_info, billing, technical_support,
complaint, greeting. -/
def topicTable : List (String × List String × ℚ) :=
  [("order_status", ["pedido", "status", "encomenda", "tracking"], 0.95),
   ("product_info", ["produto", "preço", "informação", "detalhes"], 0.90),
   ("billing", ["cobrança", "fatura", "pagamento", "valor"], 0.88),
   ("technical_support", ["problema", "defeito", "não funciona", "suporte"], 0.92),
   ("complaint", ["reclamação", "insatisfeito", "ruim"], 0.85),
   ("greeting", ["olá", "oi", "bom dia", "boa tarde"], 0.98)]

/-- First entry of the table whose keyword list matches; used to state the
spec's description of the classification algorithm. -/
def firstMatch (ml : String) : List (String × List String × ℚ) → Intent
  | [] => ⟨"general_inquiry", 0.70⟩
  | e :: rest => if anyKw ml e.2.1 then ⟨e.1, e.2.2⟩ else firstMatch ml rest

/-- The classifier as the spec describes it: lower-case the message, then
take the first match in the priority table, defaulting to
`general_inquiry` at 0.70. -/
def classify_intent_spec (message : String) : Intent :=
  firstMatch (lowerStr message) topicTable

/-- Per-topic confidence constant, read off the branches of
`classify_intent`. -/
def confOf (t : String) : ℚ :=
  if t = "order_status" then 0.95
  else if t = "product_info" then 0.90
  else if t = "billing" then 0.88
  else if t = "technical_support" then 0.92
  else if t = "complaint" then 0.85
  else if t = "greeting" then 0.98
  else 0.70

/-- The fixed set of confidence constants appearing in `classify_intent`. -/
def confList : List ℚ := [0.98, 0.95, 0.92, 0.90, 0.88, 0.85, 0.70]

lemma leadMatch_map (f : Char → Char) :
    ∀ n h : List Char, leadMatch n h = true → leadMatch (n.map f) (h.map f) = true
  | [], _, _ => rfl
  | c :: cs, [], hm => by simp [leadMatch] at hm
  | c :: cs, d :: ds, hm => by
      simp only [leadMatch, Bool.and_eq_true, beq_iff_eq] at hm
      simp only [List.map, leadMatch, Bool.and_eq_true, beq_iff_eq]
      exact ⟨by rw [hm.1], leadMatch_map f cs ds hm.2⟩

lemma subMatch_map (f : Char → Char) (n : List Char) :
    ∀ h : List Char, subMatch n h = true → subMatch (n.map f) (h.map f) = true
  | [], hm => by
      simp only [List.map]
      exact leadMatch_map f n [] hm
  | c :: cs, hm => by
      simp only [subMatch, Bool.or_eq_true] at hm
      simp only [List.map, subMatch, Bool.or_eq_true]
      rcases hm with hm | hm
      · exact Or.inl (by simpa using leadMatch_map f n (c :: cs) hm)
      · exact Or.inr (subMatch_map f n cs hm)

/-- A needle that is already fully lower-case still occurs after the
haystack is lower-cased. -/
lemma strContains_lowerStr (hay needle : String)
    (hfix : lowerStr needle = needle)
    (h : strContains hay needle = true) :
    strContains (lowerStr hay) needle = true := by
  unfold strContains at h ⊢
  have h2 := subMatch_map lowerChar needle.data hay.data h
  have h3 : needle.data.map lowerChar = needle.data := congrArg String.data hfix
  rw [h3] at h2
  exact h2

lemma anyKw_of_mem {hay k : String} {kws : List String}
    (hk : k ∈ kws) (h : strContains hay k = true) : anyKw hay kws = true := by
  unfold anyKw
  exact List.any_eq_true.mpr ⟨k, hk, h⟩

lemma classify_conf_eq_confOf (msg : String) :
    (classify_intent msg).confidence = confOf (classify_intent msg).itype := by
  simp only [classify_intent]
  split_ifs <;> rfl

lemma classify_conf_mem (msg : String) :
    (classify_intent msg).confidence ∈ confList := by
  simp only [classify_intent]
  split_ifs <;> simp [confList]

/-- C1: for every valid ChatRequest, the confidence field of the
ChatResponse returned by the `POST /chat` handler equals the constant
0.95, regardless of message content and of the classifier's value — the
handler hardcodes `confidence = 0.95` instead of propagating the
classifier's confidence. -/
theorem C1_response_confidence_hardcoded (m : ChatMessage) :
    (chat m).confidence = 0.95 := rfl

/-- C2 counterexample: the claim says the chat pipeline yields
confidence = 0.70 for the unmatched input `{u3, xyz123}`, but the
`ChatResponse` built by the handler carries the hardcoded 0.95. -/
theorem C2_counterexample :
    ¬ ((chat ⟨"u3", "xyz123", "web"⟩).confidence = 0.70) := by
  have h : (chat ⟨"u3", "xyz123", "web"⟩).confidence = (0.95 : ℚ) := rfl
  rw [h]
  norm_num

/-- C2 (amended): for the input `{u3, xyz123}` the pipeline yields
intent = "general_inquiry" and requires_human = false; the classifier's
confidence is exactly 0.70 and the handoff rule's strict comparison
0.70 < 0.7 is false, so the low-confidence rule does not fire at the
boundary; the ChatResponse's confidence field, however, is the hardcoded
0.95, not the classifier's 0.70. -/
theorem C2_unmatched_input_boundary :
    (chat ⟨"u3", "xyz123", "web"⟩).intent = "general_inquiry" ∧
    (chat ⟨"u3", "xyz123", "web"⟩).requires_human = false ∧
    (chat ⟨"u3", "xyz123", "web"⟩).confidence = 0.95 ∧
    classify_intent ("xyz123") = ⟨"general_inquiry", 0.70⟩ ∧
    ¬ ((0.70 : ℚ) < 0.7) := by
  refine ⟨rfl, ?_, rfl, rfl, by norm_num⟩
  show should_transfer_to_human ("xyz123") ⟨"general_inquiry", 0.70⟩ = false
  unfold should_transfer_to_human
  rw [if_neg, if_neg, if_neg]
  · norm_num
  · rintro ⟨h, -⟩
    exact absurd h (by decide)
  · decide

/-- C3 counterexample: the message "oi pedido" contains the greeting
keyword "oi", yet the classifier returns order_status (the greeting list
is tested last), refuting the claim's universal classifier part. -/
theorem C3_counterexample :
    strContains (lowerStr ("oi pedido")) ("oi") = true ∧
    classify_intent ("oi pedido") = ⟨"order_status", 0.95⟩ ∧
    (classify_intent ("oi pedido")).itype ≠ "greeting" := by
  exact ⟨by decide, rfl, by decide⟩

/-- C3 (amended): for every message containing one of "oi", "olá",
"bom dia", "boa tarde" (case-insensitively), the response generator
returns the fixed greeting reply (its greeting branch is first); the
classifier returns topic = "greeting" with confidence 0.98 only under the
additional assumption that none of the five earlier-priority keyword
lists (order_status, product_info, billing, technical_support, complaint)
matches the message. -/
theorem C3_greeting_messages (m : ChatMessage)
    (hg : anyKw (lowerStr m.message) ["olá", "oi", "bom dia", "boa tarde"] = true) :
    process_message m = greeting_reply ∧
    (anyKw (lowerStr m.message) ["pedido", "status", "encomenda", "tracking"] = false →
     anyKw (lowerStr m.message) ["produto", "preço", "informação", "detalhes"] = false →
     anyKw (lowerStr m.message) ["cobrança", "fatura", "pagamento", "valor"] = false →
     anyKw (lowerStr m.message) ["problema", "defeito", "não funciona", "suporte"] = false →
     anyKw (lowerStr m.message) ["reclamação", "insatisfeito", "ruim"] = false →
     classify_intent m.message = ⟨"greeting", 0.98⟩) := by
  constructor
  · unfold process_message
    rw [if_pos hg]
  · intro h1 h2 h3 h4 h5
    simp [classify_intent, h1, h2, h3, h4, h5, hg]

/-- C3 witness: the concrete greeting "Bom dia" takes both the greeting
reply branch and the greeting classification. -/
theorem C3_greeting_messages_witness :
    process_message ⟨"u1", "Bom dia", "web"⟩ = greeting_reply ∧
    classify_intent ("Bom dia") = ⟨"greeting", 0.98⟩ :=
  ⟨(C3_greeting_messages ⟨"u1", "Bom dia", "web"⟩ (by decide)).1,
   (C3_greeting_messages ⟨"u1", "Bom dia", "web"⟩ (by decide)).2
     (by decide) (by decide) (by decide) (by decide) (by decide)⟩

/-- C4: there is a message containing "suporte" for which the response
generator takes its support branch while the classifier does not return
technical_support: "suporte fatura" is classified as billing (checked
before technical_support) but the generator's billing branch comes after
its support branch. -/
theorem C4_suporte_divergence :
    ∃ msg : String,
      strContains msg ("suporte") = true ∧
      process_message ⟨"u", msg, "web"⟩ = support_reply ∧
      (classify_intent msg).itype ≠ "technical_support" :=
  ⟨"suporte fatura", by decide, rfl, by decide⟩

/-- C5: the handoff decider returns true exactly when the lower-cased
message contains a human-request phrase, or the topic is "complaint" with
confidence > 0.8, or the confidence is < 0.7; and for the message
"Quero falar com um atendente" it returns true regardless of the intent. -/
theorem C5_handoff_rule :
    (∀ (msg : String) (i : Intent),
        should_transfer_to_human msg i = true ↔
          (anyKw (lowerStr msg) human_keywords = true ∨
           (i.itype = "complaint" ∧ i.confidence > 0.8) ∨
           i.confidence < 0.7)) ∧
    (∀ i : Intent,
        should_transfer_to_human ("Quero falar com um atendente") i = true) := by
  constructor
  · intro msg i
    unfold should_transfer_to_human
    split_ifs with h1 h2 h3 <;> simp_all
  · intro i
    rfl

/-- C5 witness: the handoff decider applied at a concrete intent for the
human-request message. -/
theorem C5_handoff_rule_witness :
    should_transfer_to_human ("Quero falar com um atendente") ⟨"order_status", 0.95⟩ = true :=
  C5_handoff_rule.2 ⟨"order_status", 0.95⟩

/-- C6: the classifier equals its spec-level description — lower-case the
message, test the keyword lists in the fixed priority order order_status,
product_info, billing, technical_support, complaint, greeting, return the
first match with that topic's fixed confidence, else
("general_inquiry", 0.70); consequently every message containing
"pedido", "status" or "encomenda" yields ("order_status", 0.95). -/
theorem C6_classifier_priority_order :
    (∀ msg : String, classify_intent msg = classify_intent_spec msg) ∧
    (∀ msg : String,
        (strContains msg ("pedido") || strContains msg ("status") ||
          strContains msg ("encomenda")) = true →
        classify_intent msg = ⟨"order_status", 0.95⟩) := by
  constructor
  · intro msg
    rfl
  · intro msg hm
    have hp : anyKw (lowerStr msg) ["pedido", "status", "encomenda", "tracking"] = true := by
      simp only [Bool.or_eq_true] at hm
      rcases hm with (h | h) | h
      · exact anyKw_of_mem (by simp) (strContains_lowerStr msg ("pedido") (by decide) h)
      · exact anyKw_of_mem (by simp) (strContains_lowerStr msg ("status") (by decide) h)
      · exact anyKw_of_mem (by simp) (strContains_lowerStr msg ("encomenda") (by decide) h)
    simp [classify_intent, hp]

/-- C6 witness: a concrete message containing "pedido" is classified as
order_status at 0.95. -/
theorem C6_classifier_priority_order_witness :
    classify_intent ("Cadê meu pedido?") = ⟨"order_status", 0.95⟩ :=
  C6_classifier_priority_order.2 ("Cadê meu pedido?") (by decide)

/-- C7: the confidence in the assembled ChatResponse and the confidence
produced by the classifier always lie in the fixed set
{0.98, 0.95, 0.92, 0.90, 0.88, 0.85, 0.70}, and the classifier's
confidence is determined solely by which keyword bucket (topic tag) the
message matched. -/
theorem C7_confidence_fixed_set :
    (∀ m : ChatMessage,
        (chat m).confidence ∈ confList ∧
        (classify_intent m.message).confidence ∈ confList) ∧
    (∀ s1 s2 : String,
        (classify_intent s1).itype = (classify_intent s2).itype →
        (classify_intent s1).confidence = (classify_intent s2).confidence) := by
  constructor
  · intro m
    refine ⟨?_, classify_conf_mem m.message⟩
    have h : (chat m).confidence = (0.95 : ℚ) := rfl
    rw [h]
    simp [confList]
  · intro s1 s2 h
    rw [classify_conf_eq_confOf, classify_conf_eq_confOf, h]

/-- C7 witness: two distinct messages matching the same bucket get the
same classifier confidence. -/
theorem C7_confidence_fixed_set_witness :
    (classify_intent ("pedido")).confidence = (classify_intent ("status")).confidence :=
  C7_confidence_fixed_set.2 ("pedido") ("status") (by decide)

/-- C8: whenever the intent's confidence is < 0.7 the handoff decider
returns true regardless of message and topic; and this branch is
unreachable from the classifier, whose produced confidence is always at
least 0.70. -/
theorem C8_low_confidence_handoff :
    (∀ (msg : String) (i : Intent),
        i.confidence < 0.7 → should_transfer_to_human msg i = true) ∧
    (∀ msg : String, (0.7 : ℚ) ≤ (classify_intent msg).confidence) := by
  constructor
  · intro msg i h
    unfold should_transfer_to_human
    split_ifs with h1 h2 <;> rfl
  · intro msg
    simp only [classify_intent]
    split_ifs <;> norm_num

/-- C8 witness: a below-threshold confidence forces a handoff at a
concrete input. -/
theorem C8_low_confidence_handoff_witness :
    should_transfer_to_human ("abc") ⟨"general_inquiry", 0.5⟩ = true :=
  C8_low_confidence_handoff.1 ("abc") ⟨"general_inquiry", 0.5⟩ (by norm_num)

lemma lookup_none (t : String)
    (h1 : t ≠ "order_status") (h2 : t ≠ "product_info")
    (h3 : t ≠ "technical_support") (h4 : t ≠ "billing") (h5 : t ≠ "complaint") :
    suggestionsTable.lookup t = none := by
  have b1 : (t == "order_status") = false := beq_eq_false_iff_ne.mpr h1
  have b2 : (t == "product_info") = false := beq_eq_false_iff_ne.mpr h2
  have b3 : (t == "technical_support") = false := beq_eq_false_iff_ne.mpr h3
  have b4 : (t == "billing") = false := beq_eq_false_iff_ne.mpr h4
  have b5 : (t == "complaint") = false := beq_eq_false_iff_ne.mpr h5
  simp [suggestionsTable, List.lookup, b1, b2, b3, b4, b5]

lemma gen_len_three (i : Intent) (msg : String) :
    (generate_suggestions i msg).length = 3 := by
  by_cases h1 : i.itype = "order_status"
  · unfold generate_suggestions
    rw [h1]
    rfl
  by_cases h2 : i.itype = "product_info"
  · unfold generate_suggestions
    rw [h2]
    rfl
  by_cases h3 : i.itype = "technical_support"
  · unfold generate_suggestions
    rw [h3]
    rfl
  by_cases h4 : i.itype = "billing"
  · unfold generate_suggestions
    rw [h4]
    rfl
  by_cases h5 : i.itype = "complaint"
  · unfold generate_suggestions
    rw [h5]
    rfl
  · unfold generate_suggestions
    rw [lookup_none i.itype h1 h2 h3 h4 h5]
    rfl

/-- C9: the suggestion generator always returns exactly 3 strings — the
fixed per-topic list for the five listed topics, the fixed default list
for every other topic — so suggested_actions in every ChatResponse has
length exactly 3. -/
theorem C9_suggestions_exactly_three :
    (∀ (i : Intent) (msg : String), (generate_suggestions i msg).length = 3) ∧
    (∀ m : ChatMessage, (chat m).suggested_actions.length = 3) ∧
    (∀ (i : Intent) (msg : String), i.itype = "order_status" →
        generate_suggestions i msg =
          ["📦 Consultar outro pedido", "📱 Receber notificações por WhatsApp",
           "📧 Falar com atendente"]) ∧
    (∀ (i : Intent) (msg : String), i.itype = "product_info" →
        generate_suggestions i msg =
          ["🛍️ Ver produtos similares", "💰 Consultar formas de pagamento",
           "📞 Falar com vendedor"]) ∧
    (∀ (i : Intent) (msg : String), i.itype = "technical_support" →
        generate_suggestions i msg =
          ["📋 Acessar tutorial", "🎥 Ver vídeo explicativo",
           "👨‍💻 Falar com técnico"]) ∧
    (∀ (i : Intent) (msg : String), i.itype = "billing" →
        generate_suggestions i msg =
          ["💳 Ver formas de pagamento", "📄 Segunda via da fatura",
           "💰 Negociar desconto"]) ∧
    (∀ (i : Intent) (msg : String), i.itype = "complaint" →
        generate_suggestions i msg =
          ["📝 Abrir chamado formal", "📞 Falar com supervisor",
           "🎁 Ver compensações"]) ∧
    (∀ (i : Intent) (msg : String),
        i.itype ∉ ["order_status", "product_info", "technical_support",
                   "billing", "complaint"] →
        generate_suggestions i msg = default_suggestions) := by
  refine ⟨fun i msg => gen_len_three i msg,
          fun m => gen_len_three (classify_intent m.message) m.message,
          ?_, ?_, ?_, ?_, ?_, ?_⟩
  · intro i msg h
    unfold generate_suggestions
    rw [h]
    rfl
  · intro i msg h
    unfold generate_suggestions
    rw [h]
    rfl
  · intro i msg h
    unfold generate_suggestions
    rw [h]
    rfl
  · intro i msg h
    unfold generate_suggestions
    rw [h]
    rfl
  · intro i msg h
    unfold generate_suggestions
    rw [h]
    rfl
  · intro i msg h
    simp only [List.mem_cons, not_or] at h
    obtain ⟨h1, h2, h3, h4, h5, -⟩ := h
    unfold generate_suggestions
    rw [lookup_none i.itype h1 h2 h3 h4 h5]
    rfl

/-- C9 witness: concrete suggestion lists for a listed topic and for a
topic outside the table. -/
theorem C9_suggestions_exactly_three_witness :
    (generate_suggestions ⟨"order_status", 0.95⟩ ("a")).length = 3 ∧
    generate_suggestions ⟨"order_status", 0.95⟩ ("a") =
      ["📦 Consultar outro pedido", "📱 Receber notificações por WhatsApp",
       "📧 Falar com atendente"] ∧
    generate_suggestions ⟨"cancellation", 0.70⟩ ("b") = default_suggestions :=
  ⟨C9_suggestions_exactly_three.1 ⟨"order_status", 0.95⟩ ("a"),
   C9_suggestions_exactly_three.2.2.1 ⟨"order_status", 0.95⟩ ("a") rfl,
   C9_suggestions_exactly_three.2.2.2.2.2.2.2 ⟨"cancellation", 0.70⟩ ("b") (by decide)⟩

/-- C10: the suggestion generator's output depends only on the intent's
type field — the message parameter and the confidence have no influence
on the result. -/
theorem C10_suggestions_depend_only_on_type :
    ∀ (i1 i2 : Intent) (m1 m2 : String),
      i1.itype = i2.itype →
      generate_suggestions i1 m1 = generate_suggestions i2 m2 := by
  intro i1 i2 m1 m2 h
  unfold generate_suggestions
  rw [h]

/-- C10 witness: same intent type, different confidence and different
message strings, identical suggestions. -/
theorem C10_suggestions_depend_only_on_type_witness :
    generate_suggestions ⟨"billing", 0.88⟩ ("a") =
      generate_suggestions ⟨"billing", 0.1⟩ ("zzz") :=
  C10_suggestions_depend_only_on_type ⟨"billing", 0.88⟩ ⟨"billing", 0.1⟩ ("a") ("zzz") rfl

end Chatbot
